import Mathlib

/-
  Verification of the sms-fwd-workers core (src/src/lib.rs) against its
  natural-language specification.

  The embedding is shallow: the pure decision logic of the worker is
  translated into executable Lean definitions, effectful code is modelled
  by explicit state passing (an expiring key-value store for liveness) and
  by action traces (messages sent, edits, e-mails).  Strings are handled at
  the character-list level so everything evaluates inside the kernel.
-/

namespace SmsFwd

/-! ### String helpers (character-list level, all structural) -/

/-- Embeds Rust `str::replace(char, str)` as used by `escape_html`
(src/src/lib.rs:152): replace every occurrence of the character `c` by the
character list `r`, scanning left to right. -/
def replaceChar (c : Char) (r : List Char) : List Char → List Char
  | [] => []
  | x :: xs => (if x == c then r else [x]) ++ replaceChar c r xs

/-- Embeds `escape_html` (src/src/lib.rs:152-156): replace `&` by `&amp;`
first, then `<` by `&lt;`, then `>` by `&gt;`. -/
def escape_html_chars (s : List Char) : List Char :=
  replaceChar '>' "&gt;".data (replaceChar '<' "&lt;".data (replaceChar '&' "&amp;".data s))

/-- `escape_html` lifted to `String`. -/
def escape_html (s : String) : String := String.mk (escape_html_chars s.data)

/-- Whether the first six characters exist and are ASCII digits: the
`[[:digit:]]{6}` part of the `RE_CODE` regex (src/src/lib.rs:662). -/
def digits6 (cs : List Char) : Bool :=
  ((cs.take 6).length == 6) && (cs.take 6).all Char.isDigit

/-- Match of the regex `(?:[[:alnum:]]-)?[[:digit:]]{6}` (the `RE_CODE`
pattern, src/src/lib.rs:662) anchored at the head of `cs`, with the regex
crate's greedy leftmost-first semantics: the optional `[[:alnum:]]-` prefix
is taken when it leads to a match, otherwise the bare six digits are tried.
Returns the length of the match. -/
def re_code_match_at (cs : List Char) : Option Nat :=
  match cs with
  | c0 :: c1 :: rest =>
    if c0.isAlphanum && (c1 == '-') && digits6 rest then some 8
    else if digits6 cs then some 6
    else none
  | _ => if digits6 cs then some 6 else none

/-- One replacement produced by `Regex::replace_all` in
`impl Display for AppleMessageFilterQuery` (src/src/lib.rs:40-42):
the matched text wrapped as markers plus a monospace span. -/
def highlight_markup (m : List Char) : List Char :=
  " 👉 <code>".data ++ m ++ "</code> 👈 ".data

/-- Worker for `replace_all`: scan left to right, replace each
non-overlapping leftmost match, copy non-matching characters.  `fuel` only
bounds the recursion; `fuel = cs.length` is always enough because every
step consumes at least one character. -/
def re_code_go (fuel : Nat) (cs : List Char) : List Char :=
  match fuel, cs with
  | 0, cs => cs
  | _ + 1, [] => []
  | fuel + 1, c :: rest =>
    match re_code_match_at (c :: rest) with
    | some n =>
        highlight_markup ((c :: rest).take n) ++ re_code_go fuel ((c :: rest).drop n)
    | none => c :: re_code_go fuel rest

/-- Embeds `RE_CODE.replace_all` with the highlight replacement
(src/src/lib.rs:37-42). -/
def re_code_replace_all (cs : List Char) : List Char := re_code_go cs.length cs

/-- `re_code_replace_all` lifted to `String`. -/
def code_highlight (s : String) : String := String.mk (re_code_replace_all s.data)

/-! ### The Forward rendering -/

/-- `AppleMessageFilterQuery` (src/src/lib.rs:18-32): the message-filter
payload, projected to the two fields the worker reads. -/
structure Query where
  sender : String
  text : String
deriving DecidableEq, Repr

/-- Embeds `impl Display for AppleMessageFilterQuery` (src/src/lib.rs:34-45):
the text is HTML-escaped and then code-highlighted; the sender is written
verbatim inside a code span. -/
def render_query (q : Query) : String :=
  "<code>" ++ q.sender ++ "</code>\n\n" ++ code_highlight (escape_html q.text)

/-- Embeds `forward` (src/src/lib.rs:477-479): the notification text is
`format!("{device} {query}")`. -/
def render_forward (device sender text : String) : String :=
  device ++ " " ++ render_query ⟨sender, text⟩

/-! ### Environment (secret store and version binding) -/

/-- The worker `Env`, reduced to what the core reads: the secret store
(`env.secret(key)`, fallible) and the version metadata binding used by the
`/version` command. -/
structure Env where
  secrets : String → Option String
  versionId : String
  versionTimestamp : String

/-- Embeds `get_secret` (src/src/lib.rs:162-166).  The source panics when
the secret is absent, which kills the handler invocation; every theorem
that depends on a secret being read hypothesises that it is configured, so
the default value is never observed there. -/
def get_secret (env : Env) (key : String) : String := (env.secrets key).getD ""

/-- Embeds `check_token` (src/src/lib.rs:393-398): look up the device's
stored secret; false if the device is unknown, otherwise exact string
comparison of the token against the secret. -/
def check_token (env : Env) (device token : String) : Bool :=
  match env.secrets device with
  | none => false
  | some secret => token == secret

/-! ### Liveness tracker (HeartbeatStatus over the expiring KV store) -/

/-- `HEARTBEAT_INTERVAL_SECONDS` (src/src/lib.rs:12). -/
def HEARTBEAT_INTERVAL_SECONDS : Int := 300

/-- One stored KV entry: the last-activity timestamp in milliseconds, plus
the absolute expiration instant (in milliseconds) implied by the
`expiration_ttl` passed at write time. -/
structure KvEntry where
  value : Int
  expiresAt : Int
deriving DecidableEq, Repr

/-- The `sms-forward-heartbeat` KV namespace: one optional entry per device
key. -/
def Kv : Type := String → Option KvEntry

/-- A read from the expiring store at time `now` (milliseconds): an absent
or expired key yields nothing, otherwise the stored timestamp.  The stored
value is written by `kv.put(&device, timestamp_ms())` as the decimal string
of an `i64` and parsed back with `parse::<i64>()`, which round-trips, so the
entry is modelled directly as the integer. -/
def kvGet (kv : Kv) (now : Int) (device : String) : Option Int :=
  match kv device with
  | none => none
  | some e => if now < e.expiresAt then some e.value else none

/-- `HeartbeatStatus` (src/src/lib.rs:168-173). -/
inductive HeartbeatStatus where
  | Active
  | Inactive
  | Dead
deriving DecidableEq, Repr

/-- Embeds `HeartbeatStatus::get` (src/src/lib.rs:177-192): no (unexpired,
parseable) record means `Dead`; otherwise classify the elapsed time
`now - previous` in milliseconds against `interval * 1500` and
`interval * 2500`. -/
def HeartbeatStatus.get (kv : Kv) (now : Int) (device : String) : HeartbeatStatus :=
  match kvGet kv now device with
  | some previous =>
    let interval := now - previous
    if interval < HEARTBEAT_INTERVAL_SECONDS * 1500 then .Active
    else if interval < HEARTBEAT_INTERVAL_SECONDS * 2500 then .Inactive
    else .Dead
  | none => .Dead

/-- The TTL passed to `expiration_ttl` in `heartbeat`
(src/src/lib.rs:492): `(HEARTBEAT_INTERVAL_SECONDS as f64 * 2.5) as u64`,
which is exactly 750 seconds for the configured 300. -/
def HEARTBEAT_TTL_SECONDS : Int := 750

/-- A write to the store: `kv.put(&device, now)` with
`expiration_ttl(HEARTBEAT_TTL_SECONDS)`. -/
def kvPut (kv : Kv) (device : String) (now : Int) : Kv :=
  fun d => if d == device then some ⟨now, now + HEARTBEAT_TTL_SECONDS * 1000⟩ else kv d

/-- Embeds `heartbeat` (src/src/lib.rs:481-498): read the previous status,
emit the "up" notification exactly when it is not `Active`, then overwrite
the record with `now` and the 2.5-interval TTL.  Returns (previous status,
whether the up alert was sent, the store after the write).  The source
calls `timestamp_ms()` twice (read and write); both are modelled by the
single instant `now`. -/
def heartbeat (kv : Kv) (now : Int) (device : String) : HeartbeatStatus × Bool × Kv :=
  let previous := HeartbeatStatus.get kv now device
  (previous, previous != .Active, kvPut kv device now)

/-- The "down" alert text sent by `scheduled` (src/src/lib.rs:653). -/
def down_text (device : String) : String := "🔴 " ++ device ++ " is DOWN ⚠️"

/-- Splits a character list at every separator recognised by `p`, keeping
empty pieces: the behaviour of Rust `str::split`. -/
def splitPred (p : Char → Bool) : List Char → List (List Char)
  | [] => [[]]
  | c :: rest =>
    let r := splitPred p rest
    if p c then [] :: r
    else
      match r with
      | [] => [[c]]
      | g :: gs => (c :: g) :: gs

/-- Rust `str::split(',')`. -/
def splitComma (cs : List Char) : List (List Char) := splitPred (fun c => c == ',') cs

/-- The configured device list: `get_secret(&env, "devices").split(",")`
(src/src/lib.rs:649 and, with a `char` pattern, src/src/lib.rs:555). -/
def devices_list (env : Env) : List String :=
  (splitComma (get_secret env "devices").data).map String.mk

/-- Embeds the `scheduled` handler (src/src/lib.rs:646-657): for every
configured device read its status and, exactly when it is `Inactive`, send
the "down" alert to that device's chat.  The handler performs no write, so
the store is returned unchanged.  Result: (list of (device, alert text)
sends in order, store after the run). -/
def scheduled (env : Env) (kv : Kv) (now : Int) : List (String × String) × Kv :=
  ((devices_list env).foldr
    (fun d acc =>
      if HeartbeatStatus.get kv now d == .Inactive then (d, down_text d) :: acc else acc)
    [],
   kv)

/-! ### Event classifier (authorize) and Router (fetch) -/

/-- `StatusReport` (src/src/lib.rs:58-62). -/
structure StatusReport where
  battery : Int
  charger : Bool
deriving DecidableEq, Repr

/-- Telegram `User` (src/src/lib.rs:147-150). -/
structure User where
  id : Int
deriving DecidableEq, Repr

/-- Telegram `Chat` (src/src/lib.rs:142-145). -/
structure Chat where
  id : Int
deriving DecidableEq, Repr

/-- Telegram `Message` (src/src/lib.rs:134-140); `msgFrom` embeds the
optional `from` field. -/
structure Message where
  message_id : Int
  msgFrom : Option User
  chat : Chat
  text : String
deriving DecidableEq, Repr

/-- Telegram `Update` (src/src/lib.rs:64-81). -/
structure Update where
  message : Message
deriving DecidableEq, Repr

/-- An inbound request body, abstracted to the text the worker reads plus
the outcomes of the three serde parses the worker may attempt on it:
`from_json::<AppleMessageFilterQuery>`, `from_json::<StatusReport>`, and
`req.json::<Update>`.  A field is `some` exactly when the corresponding
parse of `raw` succeeds. -/
structure Body where
  raw : String
  asQuery : Option Query
  asStatus : Option StatusReport
  asUpdate : Option Update
deriving DecidableEq, Repr

/-- The request methods the worker distinguishes; `Other` stands for every
method that is neither GET nor POST. -/
inductive Method where
  | Get
  | Post
  | Other
deriving DecidableEq, Repr

/-- An inbound HTTP request, reduced to what `authorize` reads: the method,
the `Authorization` header, the path, the
`X-Telegram-Bot-Api-Secret-Token` header, and the body. -/
structure Request where
  method : Method
  authorization : Option String
  path : String
  telegramSecret : Option String
  body : Body
deriving DecidableEq, Repr

/-- `AuthorizedRequest` (src/src/lib.rs:587-611). -/
inductive AuthorizedRequest where
  | GetConfig (device token : String)
  | Forward (device : String) (query : Query)
  | Heartbeat (device : String)
  | ReportStatus (device : String) (status : StatusReport)
  | MessageUpdate (update : Update)
  | Unknown (device body : String)
deriving DecidableEq, Repr

/-- Whitespace trimming at both ends: Rust `str::trim`. -/
def trimChars (cs : List Char) : List Char :=
  (((cs.dropWhile Char.isWhitespace).reverse.dropWhile Char.isWhitespace)).reverse

/-- `trim` lifted to `String`. -/
def trimStr (s : String) : String := String.mk (trimChars s.data)

/-- Worker for `trim_start_matches("Bearer ")`: strips the prefix
repeatedly, as the Rust method does.  `fuel = cs.length` is always enough
because each strip removes seven characters. -/
def strip_bearer_go (fuel : Nat) (cs : List Char) : List Char :=
  match fuel with
  | 0 => cs
  | fuel + 1 =>
    if "Bearer ".data.isPrefixOf cs then strip_bearer_go fuel (cs.drop 7) else cs

/-- Embeds `s.trim_start_matches("Bearer ")` (src/src/lib.rs:405). -/
def strip_bearer (s : String) : String := String.mk (strip_bearer_go s.data.length s.data)

/-- Embeds `trim_start_matches("/").trim_end_matches("/")` on the request
path (src/src/lib.rs:408-411): drop every leading and trailing slash. -/
def trim_slashes (s : String) : String :=
  String.mk (((s.data.dropWhile (fun c => c == '/')).reverse.dropWhile
    (fun c => c == '/')).reverse)

/-- Embeds `authorization.splitn(2, '/') ... collect_tuple()`
(src/src/lib.rs:430-433): split at the first slash; fails exactly when the
string has no slash (a `splitn(2, ..)` of a slash-free string yields one
piece, which `collect_tuple::<(_, _)>` rejects). -/
def split_first_slash : List Char → Option (List Char × List Char)
  | [] => none
  | c :: rest =>
    if c == '/' then some ([], rest)
    else (split_first_slash rest).map (fun p => (c :: p.1, p.2))

/-- The credential splitter lifted to `String`. -/
def split_credential (s : String) : Option (String × String) :=
  (split_first_slash s.data).map (fun p => (String.mk p.1, String.mk p.2))

/-- Embeds the POST-body classification inside `authorize`
(src/src/lib.rs:440-449): empty body is a heartbeat; otherwise the
message-filter query parse is attempted first, the status-report parse
second, and a body parsing as neither is echoed as `Unknown`. -/
def classify_body (device : String) (b : Body) : AuthorizedRequest :=
  if b.raw == "" then .Heartbeat device
  else
    match b.asQuery with
    | some query => .Forward device query
    | none =>
      match b.asStatus with
      | some status => .ReportStatus device status
      | none => .Unknown device b.raw

/-- The device-credentialled tail of `authorize` (src/src/lib.rs:430-452):
split the credential, check the token, then dispatch on the method. -/
def device_request (env : Env) (method : Method) (authorization : String) (b : Body) :
    Option AuthorizedRequest :=
  match split_credential authorization with
  | none => none
  | some (device, token) =>
    if check_token env device token then
      match method with
      | .Get => some (.GetConfig device token)
      | .Post => some (classify_body device b)
      | .Other => none
    else none

/-- Embeds `authorize` (src/src/lib.rs:400-453).  Non-GET/POST methods are
rejected.  The credential comes from the `Authorization` header (trimmed,
`Bearer ` prefixes stripped) or, failing that, from the slash-trimmed
path; an empty path with no header falls through to the bot-update route,
which requires POST, the `X-Telegram-Bot-Api-Secret-Token` header equal to
the `update_secret` secret, and a body parsing as an `Update`.  (When
`update_secret` is not configured the source panics instead; theorems
touching that route assume it is configured.) -/
def authorize (env : Env) (req : Request) : Option AuthorizedRequest :=
  match req.method with
  | .Other => none
  | _ =>
    match req.authorization with
    | some s => device_request env req.method (strip_bearer (trimStr s)) req.body
    | none =>
      let path := trim_slashes req.path
      if path == "" then
        if req.method == .Post then
          match req.telegramSecret, env.secrets "update_secret" with
          | some s, some us =>
            if s == us then
              match req.body.asUpdate with
              | some update => some (.MessageUpdate update)
              | none => none
            else none
          | some _, none => none
          | none, _ => none
        else none
      else device_request env req.method path req.body

/-- The HTTP response `fetch` hands back: `Response::empty()` for every
path except an authenticated GET, which serves the config template with
the device credential substituted (`generate_config`,
src/src/lib.rs:455-475, abstracted to its inputs). -/
inductive FetchResponse where
  | empty
  | config (device token : String)
deriving DecidableEq, Repr

/-- A detached background task scheduled by `fetch` via `ctx.wait_until`. -/
inductive Task where
  | refresh (device : String)
  | forwardMsg (device : String) (query : Query)
  | statusMsg (device : String) (status : StatusReport)
  | updateMsg (update : Update)
  | echoMsg (device : String) (body : String)
deriving DecidableEq, Repr

/-- Embeds the `fetch` handler (src/src/lib.rs:613-643): classify the
request, and return the response together with the background tasks
scheduled, in order.  A rejected request gets `Response::empty()` with no
work scheduled. -/
def fetch (env : Env) (req : Request) : FetchResponse × List Task :=
  match authorize env req with
  | none => (.empty, [])
  | some (.GetConfig device token) => (.config device token, [])
  | some (.Forward device query) => (.empty, [.refresh device, .forwardMsg device query])
  | some (.Heartbeat device) => (.empty, [.refresh device])
  | some (.ReportStatus device status) => (.empty, [.refresh device, .statusMsg device status])
  | some (.MessageUpdate update) => (.empty, [.updateMsg update])
  | some (.Unknown device body) => (.empty, [.echoMsg device body])

/-! ### Command dispatcher (message_update) -/

/-- An outbound action of the command dispatcher: a message send to a chat,
an edit of an existing message by id, or the out-of-band command e-mail. -/
inductive ChatAction where
  | send (chat_id : Int) (text : String)
  | edit (chat_id : Int) (message_id : Int) (text : String)
  | email (device : String)
deriving DecidableEq, Repr

/-- Decimal digit run to a number; fails on the empty run or a non-digit. -/
def digitsVal (cs : List Char) : Option Nat :=
  match cs with
  | [] => none
  | _ =>
    if cs.all Char.isDigit then
      some (cs.foldl (fun a c => a * 10 + (c.toNat - '0'.toNat)) 0)
    else none

/-- Embeds Rust `str::parse::<i64>()`: an optional sign followed by at
least one digit.  (Overflow past i64 is not modelled; the configured ids
are far below it.) -/
def parseI64 (cs : List Char) : Option Int :=
  match cs with
  | '+' :: rest => (digitsVal rest).map Int.ofNat
  | '-' :: rest => (digitsVal rest).map (fun n => -(n : Int))
  | _ => (digitsVal cs).map Int.ofNat

/-- Embeds `.split(',').filter_map(|s| s.parse::<i64>().ok())`
(src/src/lib.rs:522-525, 529-532). -/
def parseIds (s : String) : List Int := (splitComma s.data).filterMap parseI64

/-- Embeds Rust `str::split_whitespace`: split on whitespace, discarding
empty pieces. -/
def split_ws (s : String) : List String :=
  ((splitPred Char.isWhitespace s.data).filter (fun g => !g.isEmpty)).map String.mk

/-- The usage-error reply of `/info` (src/src/lib.rs:552). -/
def usage_error : String := "Argument &lt;device&gt; required"

/-- The `/version` reply (src/src/lib.rs:547). -/
def version_text (env : Env) : String :=
  "<code>" ++ env.versionId ++ "</code> at " ++ env.versionTimestamp

/-- Embeds the `/info` tail of `message_update` (src/src/lib.rs:550-579):
validate the argument, the device list and the device's mail
configuration, then send the placeholder, e-mail the command, and edit the
placeholder (identified by the message id the send returned) to the
outcome.  `pId` is the message id returned by the placeholder send (`none`
when that send failed) and `eOk` the outcome of `send_email`. -/
def handle_info (env : Env) (pId : Option Int) (eOk : Bool) (chat : Int)
    (args : List String) : List ChatAction :=
  match args with
  | [] => [.send chat usage_error]
  | device :: _ =>
    if !((devices_list env).contains device) then [.send chat "Device not found"]
    else if (env.secrets (device ++ "_mail_to")).isNone then
      [.send chat "Device email not configured"]
    else
      .send chat "Sending command" ::
        match pId with
        | none => []
        | some mid =>
          .email device ::
            [if eOk then .edit chat mid "Command sent"
             else .edit chat mid "failed to send command"]

/-- Embeds the command dispatch of `message_update` (src/src/lib.rs:537-579):
the first whitespace token selects `/version` (also with a `@botname`
suffix), `/info` (likewise), or nothing. -/
def handle_command (env : Env) (pId : Option Int) (eOk : Bool) (chat : Int) :
    List String → List ChatAction
  | [] => []
  | command :: args =>
    if "/version@".data.isPrefixOf command.data || command == "/version" then
      [.send chat (version_text env)]
    else if "/info@".data.isPrefixOf command.data || command == "/info" then
      handle_info env pId eOk chat args
    else []

/-- Embeds `message_update` (src/src/lib.rs:518-580): drop updates with no
sender user, then updates whose chat id is not in `trusted_chat_ids`, then
(when `trusted_user_ids` is non-empty) updates whose user id is not in it;
finally dispatch the command.  Returns the outbound actions in order. -/
def message_update (env : Env) (pId : Option Int) (eOk : Bool) (u : Update) :
    List ChatAction :=
  match u.message.msgFrom with
  | none => []
  | some user =>
    if !((parseIds (get_secret env "trusted_chat_ids")).contains u.message.chat.id) then []
    else if (!(parseIds (get_secret env "trusted_user_ids")).isEmpty)
        && (!((parseIds (get_secret env "trusted_user_ids")).contains user.id)) then []
    else handle_command env pId eOk u.message.chat.id (split_ws u.message.text)

/-! ### Escaping lemmas -/

/-- A character does not occur in the result of replacing it, provided it
does not occur in the replacement. -/
theorem not_mem_replaceChar_self (c : Char) (r : List Char) (hr : c ∉ r) :
    ∀ s : List Char, c ∉ replaceChar c r s := by
  intro s
  induction s with
  | nil => simp [replaceChar]
  | cons x xs ih =>
    intro hmem
    rw [replaceChar, List.mem_append] at hmem
    rcases hmem with h1 | h1
    · by_cases hx : x == c
      · rw [if_pos hx] at h1
        exact hr h1
      · rw [if_neg hx] at h1
        rcases List.mem_singleton.mp h1 with rfl
        simp at hx
    · exact ih h1

/-- Replacing some other character introduces no occurrence of `c` when
neither the input nor the replacement contains `c`. -/
theorem not_mem_replaceChar_other (c d : Char) (r : List Char) (hr : c ∉ r)
    (s : List Char) (hs : c ∉ s) : c ∉ replaceChar d r s := by
  induction s with
  | nil => simp [replaceChar]
  | cons x xs ih =>
    intro hmem
    have hxs : c ∉ xs := fun h => hs (List.mem_cons_of_mem _ h)
    rw [replaceChar, List.mem_append] at hmem
    rcases hmem with h1 | h1
    · by_cases hx : x == d
      · rw [if_pos hx] at h1
        exact hr h1
      · rw [if_neg hx] at h1
        rcases List.mem_singleton.mp h1 with rfl
        exact hs (List.mem_cons_self _ _)
    · exact ih hxs h1

/-- No raw `<` survives HTML escaping. -/
theorem lt_not_mem_escape (s : List Char) : '<' ∉ escape_html_chars s := by
  unfold escape_html_chars
  exact not_mem_replaceChar_other '<' '>' _ (by decide) _
    (not_mem_replaceChar_self '<' _ (by decide) _)

/-- No raw `>` survives HTML escaping. -/
theorem gt_not_mem_escape (s : List Char) : '>' ∉ escape_html_chars s := by
  unfold escape_html_chars
  exact not_mem_replaceChar_self '>' _ (by decide) _

/-! ### C1 -/

/-- C1 counterexample: the sender `A&B<script>` is embedded verbatim in the
rendered Forward notification, not as `A&amp;B&lt;script&gt;`, so the claim
that both `sender` and `text` are HTML-escaped is false on the code. -/
theorem C1_counterexample :
    render_forward "dev" "A&B<script>" "hello"
        = "dev <code>A&B<script></code>\n\nhello"
    ∧ render_forward "dev" "A&B<script>" "hello"
        ≠ "dev <code>A&amp;B&lt;script&gt;</code>\n\nhello" :=
  ⟨by decide, by decide⟩

/-- C1 (amended): the rendered Forward notification HTML-escapes the `text`
field, replacing `&` first, then `<`, then `>`, so no raw `<` or `>` from
the text survives into the markup; the `sender` field, however, is embedded
verbatim inside the code span, without escaping. -/
theorem C1_escape_text_only (device sender text : String) :
    render_forward device sender text
      = device ++ " " ++ ("<code>" ++ sender ++ "</code>\n\n"
          ++ code_highlight (escape_html text))
    ∧ '<' ∉ (escape_html text).data
    ∧ '>' ∉ (escape_html text).data
    ∧ escape_html "&" = "&amp;"
    ∧ escape_html "<" = "&lt;"
    ∧ escape_html ">" = "&gt;" :=
  ⟨rfl, lt_not_mem_escape text.data, gt_not_mem_escape text.data,
    by decide, by decide, by decide⟩

/-! ### C6 -/

/-- A list that starts with a non-digit character is not six digits. -/
theorem digits6_false_of_head (c : Char) (rest : List Char) (hc : c.isDigit = false) :
    digits6 (c :: rest) = false := by
  simp [digits6, hc]

/-- An all-non-digit list is not six digits. -/
theorem digits6_false_of_all (cs : List Char) (h : ∀ c ∈ cs, c.isDigit = false) :
    digits6 cs = false := by
  cases cs with
  | nil => decide
  | cons c rest => exact digits6_false_of_head c rest (h c (List.mem_cons_self _ _))

/-- The code regex has no match at the head of an all-non-digit list. -/
theorem re_code_match_at_none (cs : List Char) (h : ∀ c ∈ cs, c.isDigit = false) :
    re_code_match_at cs = none := by
  match cs with
  | [] => decide
  | [c] =>
    simp [re_code_match_at, digits6_false_of_all _ h]
  | c0 :: c1 :: rest =>
    have h1 : digits6 rest = false :=
      digits6_false_of_all rest (fun c hc => h c (by simp [hc]))
    have h2 : digits6 (c0 :: c1 :: rest) = false := digits6_false_of_all _ h
    simp [re_code_match_at, h1, h2]

/-- The highlight replacement leaves an all-non-digit list untouched. -/
theorem re_code_go_id (fuel : Nat) (cs : List Char) (h : ∀ c ∈ cs, c.isDigit = false) :
    re_code_go fuel cs = cs := by
  induction fuel generalizing cs with
  | zero => rfl
  | succ n ih =>
    cases cs with
    | nil => rfl
    | cons c rest =>
      have hm := re_code_match_at_none (c :: rest) h
      simp [re_code_go, hm, ih rest (fun x hx => h x (List.mem_cons_of_mem _ hx))]

/-- C6 counterexample: the actual pattern requires exactly six digits (so
the four-digit run in `your code is 1234` is not highlighted, against the
claimed 4-to-8 range), and `replace_all` highlights every match, not only
the first. -/
theorem C6_counterexample :
    code_highlight "your code is 1234" = "your code is 1234"
    ∧ code_highlight "123456 and 654321"
        = " 👉 <code>123456</code> 👈  and  👉 <code>654321</code> 👈 " :=
  ⟨by decide, by decide⟩

/-- C6 (amended): the verification-code extraction matches an optional
single alphanumeric-plus-hyphen prefix followed by exactly six digits, with
no boundary requirement, and wraps every (leftmost, non-overlapping) match
in marker glyphs around a monospace span; a text without digits is left
without highlight markup.  `your code is 123456` yields a highlighted
`123456` token and `no numbers here` yields none. -/
theorem C6_highlight (s : String) (h : ∀ c ∈ s.data, c.isDigit = false) :
    code_highlight s = s
    ∧ code_highlight "your code is 123456" = "your code is  👉 <code>123456</code> 👈 "
    ∧ code_highlight "no numbers here" = "no numbers here"
    ∧ code_highlight "G-123456" = " 👉 <code>G-123456</code> 👈 "
    ∧ render_forward "dev" "Apple" "your code is 123456"
        = "dev <code>Apple</code>\n\nyour code is  👉 <code>123456</code> 👈 " := by
  refine ⟨?_, by decide, by decide, by decide, by decide⟩
  unfold code_highlight re_code_replace_all
  rw [re_code_go_id _ _ h]

/-- C6 witness: the highlight function applied at a concrete digit-free
text. -/
theorem C6_highlight_witness :
    code_highlight "no numbers here" = "no numbers here" :=
  (C6_highlight "no numbers here" (by decide)).1

/-! ### C2 -/

/-- C2: the liveness status is `Dead` when no last-activity record exists
(absent or expired key), and otherwise, with `elapsed = now - t`
milliseconds and `H = 300` seconds, it is `Active` iff `elapsed < 1.5 H`
(450000 ms), `Inactive` iff `1.5 H ≤ elapsed < 2.5 H` (750000 ms), and
`Dead` iff `elapsed ≥ 2.5 H`. -/
theorem C2_status (kv : Kv) (now : Int) (device : String) :
    (kvGet kv now device = none → HeartbeatStatus.get kv now device = .Dead)
    ∧ ∀ t, kvGet kv now device = some t →
        ((HeartbeatStatus.get kv now device = .Active ↔ now - t < 450000)
         ∧ (HeartbeatStatus.get kv now device = .Inactive ↔
              450000 ≤ now - t ∧ now - t < 750000)
         ∧ (HeartbeatStatus.get kv now device = .Dead ↔ 750000 ≤ now - t)) := by
  constructor
  · intro h
    simp [HeartbeatStatus.get, h]
  · intro t ht
    simp only [HeartbeatStatus.get, ht, HEARTBEAT_INTERVAL_SECONDS]
    norm_num
    split_ifs with h1 h2 <;>
      refine ⟨?_, ?_, ?_⟩ <;> simp <;> omega

/-- C2 witness: the boundary examples of the spec, with `H = 300` s:
elapsed 449 s is `Active`, 451 s is `Inactive`, 751 s is `Dead`, and a
device with no record is `Dead`. -/
theorem C2_status_witness :
    HeartbeatStatus.get (fun d => if d == "dev" then some ⟨0, 1000000000⟩ else none)
        449000 "dev" = .Active
    ∧ HeartbeatStatus.get (fun d => if d == "dev" then some ⟨0, 1000000000⟩ else none)
        451000 "dev" = .Inactive
    ∧ HeartbeatStatus.get (fun d => if d == "dev" then some ⟨0, 1000000000⟩ else none)
        751000 "dev" = .Dead
    ∧ HeartbeatStatus.get (fun d => if d == "dev" then some ⟨0, 1000000000⟩ else none)
        0 "nodevice" = .Dead := by
  refine ⟨?_, ?_, ?_, ?_⟩
  · exact ((C2_status _ 449000 "dev").2 0 (by decide)).1.mpr (by decide)
  · exact ((C2_status _ 451000 "dev").2 0 (by decide)).2.1.mpr (by decide)
  · exact ((C2_status _ 751000 "dev").2 0 (by decide)).2.2.mpr (by decide)
  · exact (C2_status _ 0 "nodevice").1 (by decide)

/-! ### C3 -/

/-- C3: `heartbeat` evaluates the status before writing, reports exactly
that previous status, sends the "up" alert exactly when it is not
`Active`, and writes `now` with expiration `2.5 H` (750 s) from now;
consequently refreshing a `Dead` device returns `Dead` with one alert and
an immediate second refresh returns `Active` with no alert. -/
theorem C3_refresh (kv : Kv) (now : Int) (device : String)
    (h : HeartbeatStatus.get kv now device = .Dead) :
    (∀ (kv2 : Kv) (now2 : Int) (d2 : String),
        (heartbeat kv2 now2 d2).1 = HeartbeatStatus.get kv2 now2 d2
        ∧ ((heartbeat kv2 now2 d2).2.1 = true ↔ HeartbeatStatus.get kv2 now2 d2 ≠ .Active)
        ∧ (heartbeat kv2 now2 d2).2.2 d2
            = some ⟨now2, now2 + HEARTBEAT_TTL_SECONDS * 1000⟩)
    ∧ (heartbeat kv now device).1 = .Dead
    ∧ (heartbeat kv now device).2.1 = true
    ∧ (heartbeat (heartbeat kv now device).2.2 now device).1 = .Active
    ∧ (heartbeat (heartbeat kv now device).2.2 now device).2.1 = false := by
  have hsecond :
      HeartbeatStatus.get (heartbeat kv now device).2.2 now device = .Active := by
    simp only [heartbeat, kvPut, HeartbeatStatus.get, kvGet, beq_self_eq_true, if_pos,
      HEARTBEAT_TTL_SECONDS, HEARTBEAT_INTERVAL_SECONDS]
    norm_num
  refine ⟨?_, ?_, ?_, ?_, ?_⟩
  · intro kv2 now2 d2
    refine ⟨rfl, ?_, ?_⟩
    · simp [heartbeat, bne_iff_ne]
    · simp [heartbeat, kvPut]
  · simpa [heartbeat] using h
  · simp [heartbeat, h]
  · simpa [heartbeat] using hsecond
  · have hs2 : HeartbeatStatus.get (kvPut kv device now) now device = .Active := hsecond
    simp [heartbeat, hs2]

/-- C3 witness: a device with no record (hence `Dead`) refreshed twice at
the same instant. -/
theorem C3_refresh_witness :
    (heartbeat (fun _ => none) 1000 "dev").1 = .Dead
    ∧ (heartbeat (fun _ => none) 1000 "dev").2.1 = true
    ∧ (heartbeat (heartbeat (fun _ => none) 1000 "dev").2.2 1000 "dev").1 = .Active
    ∧ (heartbeat (heartbeat (fun _ => none) 1000 "dev").2.2 1000 "dev").2.1 = false := by
  have h := C3_refresh (fun _ => none) 1000 "dev" (by decide)
  exact ⟨h.2.1, h.2.2.1, h.2.2.2.1, h.2.2.2.2⟩

/-! ### C7 -/

/-- A conditional foldr is a filter followed by a map. -/
theorem foldr_filter_map {α β : Type} (p : α → Bool) (f : α → β) (l : List α) :
    l.foldr (fun d acc => if p d then f d :: acc else acc) []
      = (l.filter p).map f := by
  induction l with
  | nil => rfl
  | cons d ds ih => by_cases h : p d <;> simp [List.filter_cons, h, ih]

/-- C7: each sweep run reads the status of every configured device and
emits the "down" alert exactly for the devices whose status is `Inactive`,
mutating nothing; a second run against the unchanged store emits the same
alerts again. -/
theorem C7_sweep (env : Env) (kv : Kv) (now : Int) :
    (scheduled env kv now).1
      = ((devices_list env).filter
          (fun d => HeartbeatStatus.get kv now d == .Inactive)).map
          (fun d => (d, down_text d))
    ∧ (scheduled env kv now).2 = kv
    ∧ (scheduled env (scheduled env kv now).2 now).1 = (scheduled env kv now).1
    ∧ (∀ d, d ∈ devices_list env → HeartbeatStatus.get kv now d = .Inactive →
        (d, down_text d) ∈ (scheduled env kv now).1)
    ∧ (∀ d msg, (d, msg) ∈ (scheduled env kv now).1 →
        HeartbeatStatus.get kv now d = .Inactive) := by
  have h0 : (scheduled env kv now).1
      = ((devices_list env).filter
          (fun d => HeartbeatStatus.get kv now d == .Inactive)).map
          (fun d => (d, down_text d)) :=
    foldr_filter_map _ _ _
  refine ⟨h0, rfl, rfl, ?_, ?_⟩
  · intro d hd hs
    rw [h0]
    exact List.mem_map_of_mem _ (List.mem_filter.mpr ⟨hd, by simp [hs]⟩)
  · intro d msg hmem
    rw [h0] at hmem
    rcases List.mem_map.mp hmem with ⟨d2, hd2, heq⟩
    rcases Prod.mk.injEq .. ▸ heq with ⟨rfl, -⟩
    simpa using (List.mem_filter.mp hd2).2

/-! ### Concrete deployment used by the witnesses -/

/-- A concrete environment: one device `dev` with secret `tok`, a bot
update secret, an operator allow-list containing chat 1 with no user
restriction, and one configured device `phone` with a command mailbox. -/
def envW : Env :=
  ⟨fun k =>
    if k == "dev" then some "tok"
    else if k == "update_secret" then some "us"
    else if k == "trusted_chat_ids" then some "1"
    else if k == "trusted_user_ids" then some ""
    else if k == "devices" then some "phone"
    else if k == "phone_mail_to" then some "ops@example.org"
    else none,
   "versionid", "versionts"⟩

/-- An empty request body. -/
def bodyEmptyW : Body := ⟨"", none, none, none⟩

/-- A body no schema parses. -/
def bodyRawW : Body := ⟨"garbage", none, none, none⟩

/-- A body parsing both as a message-filter query and as a status report. -/
def bodyBothW : Body := ⟨"x", some ⟨"s", "t"⟩, some ⟨50, true⟩, none⟩

/-- C7 witness: with `phone` last seen 500 s ago (within the `Inactive`
window), the sweep emits the down alert, and emits it again on an
immediately following run over the store the first run returned. -/
theorem C7_sweep_witness :
    ("phone", down_text "phone")
        ∈ (scheduled envW (fun d => if d == "phone" then some ⟨0, 1000000000⟩ else none)
            500000).1
    ∧ ("phone", down_text "phone")
        ∈ (scheduled envW
            (scheduled envW (fun d => if d == "phone" then some ⟨0, 1000000000⟩ else none)
              500000).2 500000).1 := by
  have h := C7_sweep envW (fun d => if d == "phone" then some ⟨0, 1000000000⟩ else none)
    500000
  have hmem := h.2.2.2.1 "phone" (by decide) (by decide)
  exact ⟨hmem, by rw [h.2.2.1]; exact hmem⟩

/-! ### C4 -/

/-- The POST-body classification never produces the `GetConfig` variant. -/
theorem classify_body_ne_config (device : String) (b : Body) (d t : String) :
    classify_body device b ≠ .GetConfig d t := by
  unfold classify_body
  split
  · simp
  · split
    · simp
    · split <;> simp

/-- A POST request with device credentials is never classified
`GetConfig`. -/
theorem device_request_post_no_config (env : Env) (auth : String) (b : Body)
    (d t : String) : device_request env .Post auth b ≠ some (.GetConfig d t) := by
  unfold device_request
  cases hsc : split_credential auth with
  | none => simp
  | some p =>
    obtain ⟨dev, tok⟩ := p
    cases hct : check_token env dev tok with
    | false => simp [hct]
    | true =>
      simp only [hct, if_true]
      simpa using classify_body_ne_config dev b d t

/-- A POST request is never classified `GetConfig`. -/
theorem authorize_post_no_config (env : Env) (req : Request)
    (h : req.method = .Post) (d t : String) :
    authorize env req ≠ some (.GetConfig d t) := by
  unfold authorize
  rw [h]
  cases ha : req.authorization with
  | some s => exact device_request_post_no_config env _ req.body d t
  | none =>
    cases hpe : (trim_slashes req.path == "") with
    | false =>
      simp only [hpe, Bool.false_eq_true, if_false]
      exact device_request_post_no_config env _ req.body d t
    | true =>
      simp only [hpe, if_true]
      cases hts : req.telegramSecret with
      | none => simp
      | some s2 =>
        cases hus : env.secrets "update_secret" with
        | none => simp
        | some us =>
          cases heq : (s2 == us) with
          | false => simp [heq]
          | true =>
            cases hau : req.body.asUpdate with
            | none => simp [hau, heq]
            | some u => simp [hau, heq]

/-- The response to any POST request is `Response::empty()`. -/
theorem fetch_post_empty (env : Env) (req : Request) (h : req.method = .Post) :
    (fetch env req).1 = .empty := by
  unfold fetch
  cases ha : authorize env req with
  | none => rfl
  | some r =>
    cases r with
    | GetConfig d t => exact absurd ha (authorize_post_no_config env req h d t)
    | Forward d q => rfl
    | Heartbeat d => rfl
    | ReportStatus d st => rfl
    | MessageUpdate u => rfl
    | Unknown d b => rfl

/-- C4: every rejected request (unknown device, wrong token, bad bot
secret, disallowed method — all the cases where `authorize` yields
nothing) receives the same `Response::empty()` as a successfully ingested
POST event, and authentication succeeds exactly when the token equals the
stored secret of the named device. -/
theorem C4_uniform_response (env : Env) (req req2 : Request)
    (hrej : authorize env req = none) (hpost : req2.method = .Post) :
    (fetch env req).1 = .empty
    ∧ (fetch env req2).1 = .empty
    ∧ (fetch env req2).1 = (fetch env req).1
    ∧ (∀ device token, check_token env device token = true ↔
        env.secrets device = some token) := by
  have h1 : (fetch env req).1 = .empty := by
    unfold fetch
    rw [hrej]
  have h2 := fetch_post_empty env req2 hpost
  refine ⟨h1, h2, h2.trans h1.symm, ?_⟩
  intro device token
  unfold check_token
  cases hs : env.secrets device with
  | none => simp
  | some secret =>
    rw [beq_iff_eq]
    exact ⟨fun hb => by rw [hb], fun hb => (Option.some.inj hb).symm⟩

/-- C4 witness: a wrong-token POST is rejected yet receives the same
response as an accepted heartbeat POST. -/
theorem C4_uniform_response_witness :
    (fetch envW ⟨.Post, some "Bearer dev/wrong", "/", none, bodyEmptyW⟩).1 = .empty
    ∧ (fetch envW ⟨.Post, some "Bearer dev/tok", "/", none, bodyEmptyW⟩).1
        = (fetch envW ⟨.Post, some "Bearer dev/wrong", "/", none, bodyEmptyW⟩).1
    ∧ (check_token envW "dev" "tok" = true ↔ envW.secrets "dev" = some "tok") := by
  have h := C4_uniform_response envW
    ⟨.Post, some "Bearer dev/wrong", "/", none, bodyEmptyW⟩
    ⟨.Post, some "Bearer dev/tok", "/", none, bodyEmptyW⟩
    (by decide) rfl
  exact ⟨h.1, h.2.2.1, h.2.2.2 "dev" "tok"⟩

/-! ### C5 -/

/-- `String.mk` after `String.data` is the identity. -/
theorem mk_data (s : String) : String.mk s.data = s := rfl

/-- `dropWhile` is the identity on a list none of whose elements satisfy
the predicate. -/
theorem dropWhile_eq_self_of {α : Type} (p : α → Bool) (l : List α)
    (h : ∀ c ∈ l, p c = false) : l.dropWhile p = l := by
  cases l with
  | nil => rfl
  | cons x xs => simp [List.dropWhile_cons, h x (List.mem_cons_self _ _)]

/-- Trimming is the identity on a whitespace-free string. -/
theorem trimStr_eq_self (s : String) (h : ∀ c ∈ s.data, c.isWhitespace = false) :
    trimStr s = s := by
  unfold trimStr trimChars
  rw [dropWhile_eq_self_of _ _ h,
    dropWhile_eq_self_of _ _ (fun c hc => h c (List.mem_reverse.mp hc)),
    List.reverse_reverse]

/-- Stripping `Bearer ` prefixes is the identity when the string does not
start with one. -/
theorem strip_bearer_eq_self (s : String)
    (h : "Bearer ".data.isPrefixOf s.data = false) : strip_bearer s = s := by
  unfold strip_bearer
  cases hl : s.data.length with
  | zero => exact mk_data s
  | succ n =>
    unfold strip_bearer_go
    rw [h]
    exact mk_data s

/-- Splitting at the first slash of `d ++ '/' :: t` recovers `(d, t)` when
`d` is slash-free. -/
theorem split_first_slash_append (d t : List Char) (h : ('/' : Char) ∉ d) :
    split_first_slash (d ++ '/' :: t) = some (d, t) := by
  induction d with
  | nil => simp [split_first_slash]
  | cons c cs ih =>
    have hc : (c == '/') = false := by
      simp only [beq_eq_false_iff_ne, ne_eq]
      rintro rfl
      exact h (List.mem_cons_self _ _)
    simp [split_first_slash, hc, ih (fun hm => h (List.mem_cons_of_mem _ hm))]

/-- The credential of a device request decomposes as expected. -/
theorem split_credential_append (device token : String)
    (h : ('/' : Char) ∉ device.data) :
    split_credential (device ++ "/" ++ token) = some (device, token) := by
  unfold split_credential
  have hdata : (device ++ "/" ++ token).data = device.data ++ '/' :: token.data := by
    simp [String.data_append]
  rw [hdata, split_first_slash_append _ _ h]
  simp [mk_data]

/-- C5: an authenticated POST is classified from its body with the
message-filter schema tried first and the status-report schema second: an
empty body is a heartbeat, a non-empty body parsing as a message-filter
query is `Forward` even when it also parses as a status report, a
status-report-only body is `ReportStatus`, and a body parsing as neither
is echoed as `Unknown` with the device and the raw body. -/
theorem C5_classification (env : Env) (req : Request) (device token : String)
    (hm : req.method = .Post)
    (ha : req.authorization = some (device ++ "/" ++ token))
    (hslash : ('/' : Char) ∉ device.data)
    (hws : ∀ c ∈ (device ++ "/" ++ token).data, c.isWhitespace = false)
    (hbearer : "Bearer ".data.isPrefixOf (device ++ "/" ++ token).data = false)
    (htok : env.secrets device = some token) :
    authorize env req = some (classify_body device req.body)
    ∧ (req.body.raw = "" → classify_body device req.body = .Heartbeat device)
    ∧ (∀ q, req.body.raw ≠ "" → req.body.asQuery = some q →
        classify_body device req.body = .Forward device q)
    ∧ (∀ st, req.body.raw ≠ "" → req.body.asQuery = none →
        req.body.asStatus = some st →
        classify_body device req.body = .ReportStatus device st)
    ∧ (req.body.raw ≠ "" → req.body.asQuery = none → req.body.asStatus = none →
        classify_body device req.body = .Unknown device req.body.raw) := by
  refine ⟨?_, ?_, ?_, ?_, ?_⟩
  · unfold authorize
    rw [hm, ha]
    show device_request env .Post
      (strip_bearer (trimStr (device ++ "/" ++ token))) req.body = _
    rw [trimStr_eq_self _ hws, strip_bearer_eq_self _ hbearer]
    unfold device_request
    rw [split_credential_append device token hslash]
    simp [check_token, htok]
  · intro hr
    simp [classify_body, hr]
  · intro q hr hq
    simp [classify_body, hr, hq]
  · intro st hr hq hst
    simp [classify_body, hr, hq, hst]
  · intro hr hq hst
    simp [classify_body, hr, hq, hst]

/-- C5 witness: a body parsing as both schemas classifies as `Forward`. -/
theorem C5_classification_witness :
    authorize envW ⟨.Post, some "dev/tok", "/", none, bodyBothW⟩
      = some (.Forward "dev" ⟨"s", "t"⟩) := by
  have h := C5_classification envW ⟨.Post, some "dev/tok", "/", none, bodyBothW⟩
    "dev" "tok" rfl (by decide) (by decide) (by decide) (by decide) (by decide)
  rw [h.1, h.2.2.1 ⟨"s", "t"⟩ (by decide) rfl]

/-! ### C8 -/

/-- C8 counterexample: an authenticated `Unknown` POST (valid credentials,
unparsable body) and an authenticated `GetConfig` GET schedule no liveness
refresh at all, so the claim that every device-bearing variant refreshes
the liveness record is false on the code. -/
theorem C8_counterexample :
    authorize envW ⟨.Post, some "Bearer dev/tok", "/", none, bodyRawW⟩
        = some (.Unknown "dev" "garbage")
    ∧ Task.refresh "dev"
        ∉ (fetch envW ⟨.Post, some "Bearer dev/tok", "/", none, bodyRawW⟩).2
    ∧ authorize envW ⟨.Get, some "Bearer dev/tok", "/", none, bodyEmptyW⟩
        = some (.GetConfig "dev" "tok")
    ∧ Task.refresh "dev"
        ∉ (fetch envW ⟨.Get, some "Bearer dev/tok", "/", none, bodyEmptyW⟩).2 := by
  refine ⟨by decide, by decide, by decide, by decide⟩

/-- C8 (amended): the Router schedules the liveness refresh exactly for
the authenticated requests classified `Forward`, `Heartbeat` or
`ReportStatus`; `GetConfig`, `Unknown` and `MessageUpdate` requests do not
touch the liveness record. -/
theorem C8_refresh_variants (env : Env) (req : Request) (r : AuthorizedRequest)
    (h : authorize env req = some r) (device : String) :
    Task.refresh device ∈ (fetch env req).2 ↔
      ((∃ q, r = .Forward device q) ∨ r = .Heartbeat device
        ∨ (∃ st, r = .ReportStatus device st)) := by
  unfold fetch
  rw [h]
  cases r <;> simp [eq_comm]

/-- C8 witness: a heartbeat POST does schedule the refresh. -/
theorem C8_refresh_variants_witness :
    Task.refresh "dev"
      ∈ (fetch envW ⟨.Post, some "Bearer dev/tok", "/", none, bodyEmptyW⟩).2 := by
  have h := C8_refresh_variants envW ⟨.Post, some "Bearer dev/tok", "/", none, bodyEmptyW⟩
    (.Heartbeat "dev") (by decide) "dev"
  exact h.mpr (Or.inr (Or.inl rfl))

/-! ### C9 -/

/-- C9: for an `/info` command arriving from an authorized operator (a
sender user present, chat id allowed, user allow-list empty or containing
the user): a missing device argument draws the usage-error reply; an
argument naming a device outside the configured list draws exactly the
single "Device not found" reply, with no send-then-edit sequence; a device
without a configured command mailbox draws the configuration-missing
reply; otherwise the dispatcher sends the "Sending command" placeholder,
e-mails the command, and edits exactly the message id the placeholder send
returned, to the success or failure text. -/
theorem C9_info (env : Env) (pId : Option Int) (eOk : Bool) (u : Update) (user : User)
    (hf : u.message.msgFrom = some user)
    (hc : (parseIds (get_secret env "trusted_chat_ids")).contains u.message.chat.id
      = true)
    (hu : (parseIds (get_secret env "trusted_user_ids")).isEmpty = true
      ∨ (parseIds (get_secret env "trusted_user_ids")).contains user.id = true) :
    (split_ws u.message.text = ["/info"] →
        message_update env pId eOk u = [.send u.message.chat.id usage_error])
    ∧ (∀ device rest, split_ws u.message.text = "/info" :: device :: rest →
        (((devices_list env).contains device = false →
            message_update env pId eOk u
              = [.send u.message.chat.id "Device not found"])
         ∧ ((devices_list env).contains device = true →
            env.secrets (device ++ "_mail_to") = none →
            message_update env pId eOk u
              = [.send u.message.chat.id "Device email not configured"])
         ∧ (∀ mailTo mid, (devices_list env).contains device = true →
            env.secrets (device ++ "_mail_to") = some mailTo →
            pId = some mid →
            message_update env pId eOk u
              = [.send u.message.chat.id "Sending command", .email device,
                 .edit u.message.chat.id mid
                   (if eOk then "Command sent" else "failed to send command")]))) := by
  have hmu : message_update env pId eOk u
      = handle_command env pId eOk u.message.chat.id (split_ws u.message.text) := by
    unfold message_update
    rw [hf, hc]
    rcases hu with h1 | h1 <;>
      simp only [h1, Bool.not_true, Bool.false_eq_true, if_false, Bool.false_and,
        Bool.and_false]
  have hinfo : ∀ args, handle_command env pId eOk u.message.chat.id ("/info" :: args)
      = handle_info env pId eOk u.message.chat.id args := by
    intro args
    simp only [handle_command]
    rw [show ("/version@".data.isPrefixOf ("/info" : String).data
        || ("/info" : String) == "/version") = false from by decide]
    rw [show ("/info@".data.isPrefixOf ("/info" : String).data
        || ("/info" : String) == "/info") = true from by decide]
    simp
  refine ⟨?_, ?_⟩
  · intro hsplit
    rw [hmu, hsplit, hinfo]
    rfl
  · intro device rest hsplit
    rw [hmu, hsplit, hinfo]
    refine ⟨?_, ?_, ?_⟩
    · intro hnd
      have hmem : device ∉ devices_list env := by simpa using hnd
      simp [handle_info, hmem]
    · intro hd hmail
      have hmem : device ∈ devices_list env := by simpa using hd
      simp [handle_info, hmem, hmail]
    · intro mailTo mid hd hmail hpid
      have hmem : device ∈ devices_list env := by simpa using hd
      subst hpid
      cases eOk <;> simp [handle_info, hmem, hmail]

/-- C9 witness: `/info missingdevice` from the allowed chat draws exactly
the "Device not found" reply. -/
theorem C9_info_witness :
    message_update envW none false ⟨⟨7, some ⟨5⟩, ⟨1⟩, "/info missingdevice"⟩⟩
      = [.send 1 "Device not found"] := by
  have h := C9_info envW none false ⟨⟨7, some ⟨5⟩, ⟨1⟩, "/info missingdevice"⟩⟩ ⟨5⟩
    rfl (by decide) (Or.inl (by decide))
  exact (h.2 "missingdevice" [] (by decide)).1 (by decide)

/-! ### C10 -/

/-- C10: an operator chat update whose message has no sender user is
dropped by `message_update` before any authorization check or command
parsing, producing no outbound action, whatever the environment (in
particular even when the chat id is allow-listed and the user allow-list
is empty). -/
theorem C10_no_sender_dropped (env : Env) (pId : Option Int) (eOk : Bool) (u : Update)
    (h : u.message.msgFrom = none) :
    message_update env pId eOk u = [] := by
  unfold message_update
  rw [h]

/-- C10 witness: a sender-less `/info` update in the allow-listed chat of
`envW` (whose user allow-list is empty) produces no action. -/
theorem C10_no_sender_dropped_witness :
    message_update envW (some 42) true ⟨⟨7, none, ⟨1⟩, "/info phone"⟩⟩ = [] :=
  C10_no_sender_dropped envW (some 42) true ⟨⟨7, none, ⟨1⟩, "/info phone"⟩⟩ rfl

end SmsFwd
